import Mathlib

set_option linter.unusedSectionVars false
set_option linter.unusedVariables false

/-!
Verification development for the radar routing and geofencing service.

The definitions below are a shallow embedding of the Python source:
the geodesic kernel, the four procedural route generators, the metrics
computation, the GeoJSON assembler, the database-backed provider control
flow, and the nearby / delta-sync API views.  Numbers are modelled over an
arbitrary linear ordered field (instantiated at rationals for executable
checks and at the reals when actual trigonometry matters); transcendental
library functions used by the code (sin, cos, asin, atan2, sqrt and the
constant pi) are packaged as a parameter structure so that the same
definitions can be instantiated with real analysis or with an executable
stub.  Machine-float rounding is idealised as exact field arithmetic.
-/

deriving instance DecidableEq for Except

namespace Radar

/-- Bundle of the math library functions the Python code calls
(math.sin, math.cos, math.asin, math.atan2, math.sqrt, math.pi). -/
structure MathApi (α : Type) where
  pi : α
  sin : α → α
  cos : α → α
  asin : α → α
  atan2 : α → α → α
  sqrt : α → α

variable {α : Type} [LinearOrderedField α] [FloorRing α]

/-- Python exception kinds that the routing code raises or catches. -/
inductive PyErr where
  | valueError (msg : String)
  | runtimeError (msg : String)
  | dbError (msg : String)
deriving Repr, DecidableEq

/-- A GPS coordinate record, from the Coordinate dataclass (lat, lon). -/
structure Coord (α : Type) where
  lat : α
  lon : α
deriving Repr, DecidableEq

/-- Coordinate construction: the dataclass post-init validation raises
ValueError when lat is outside [-90, 90] or lon is outside [-180, 180]. -/
def mkCoord (lat lon : α) : Except PyErr (Coord α) :=
  if -90 ≤ lat ∧ lat ≤ 90 then
    if -180 ≤ lon ∧ lon ≤ 180 then .ok ⟨lat, lon⟩
    else .error (.valueError "Invalid longitude")
  else .error (.valueError "Invalid latitude")

/-- Validity predicate matching the dataclass range checks. -/
def validCoord (c : Coord α) : Prop :=
  -90 ≤ c.lat ∧ c.lat ≤ 90 ∧ -180 ≤ c.lon ∧ c.lon ≤ 180

/-- Earth radius constant from config.EARTH_RADIUS_M. -/
def EARTH_RADIUS_M : α := 6371000

/-- Conversion to the (lon, lat) pair used for GeoJSON output. -/
def Coord.toTuple (c : Coord α) : α × α := (c.lon, c.lat)

/-- Python math.radians: degrees to radians. -/
def radiansA (api : MathApi α) (x : α) : α := x * api.pi / 180

/-- Python math.degrees: radians to degrees. -/
def degreesA (api : MathApi α) (x : α) : α := x * 180 / api.pi

/-- Python float modulo: x - y * floor (x / y). -/
def pymod (x y : α) : α := x - y * (⌊x / y⌋ : ℤ)

/-- Python int(): truncation toward zero. -/
def pytrunc (x : α) : ℤ := if 0 ≤ x then ⌊x⌋ else ⌈x⌉

/-- Python round(x, 1): round to one decimal place. -/
def roundTo1 (x : α) : α := (round (10 * x) : ℤ) / 10

/-- Python round(x, 2): round to two decimal places. -/
def roundTo2 (x : α) : α := (round (100 * x) : ℤ) / 100

/-- GeographyUtils.haversine_distance: great circle distance in meters. -/
def haversine (api : MathApi α) (c1 c2 : Coord α) : α :=
  let lat1 := radiansA api c1.lat
  let lon1 := radiansA api c1.lon
  let lat2 := radiansA api c2.lat
  let lon2 := radiansA api c2.lon
  let dlat := lat2 - lat1
  let dlon := lon2 - lon1
  let a := (api.sin (dlat / 2)) ^ 2 +
    api.cos lat1 * api.cos lat2 * (api.sin (dlon / 2)) ^ 2
  let c := 2 * api.asin (api.sqrt a)
  EARTH_RADIUS_M * c

/-- GeographyUtils.bearing: initial bearing in degrees, normalised to
[0, 360) with the Python float modulo. -/
def bearingA (api : MathApi α) (c1 c2 : Coord α) : α :=
  let lat1 := radiansA api c1.lat
  let lon1 := radiansA api c1.lon
  let lat2 := radiansA api c2.lat
  let lon2 := radiansA api c2.lon
  let dlon := lon2 - lon1
  let y := api.sin dlon * api.cos lat2
  let x := api.cos lat1 * api.sin lat2 - api.sin lat1 * api.cos lat2 * api.cos dlon
  pymod (degreesA api (api.atan2 y x) + 360) 360

/-- GeographyUtils.destination_point before coordinate construction:
the raw (lat, lon) pair in degrees.  No longitude normalisation occurs. -/
def rawDestination (api : MathApi α) (c : Coord α) (distM brgDeg : α) : α × α :=
  let lat1 := radiansA api c.lat
  let lon1 := radiansA api c.lon
  let brg := radiansA api brgDeg
  let angDist := distM / EARTH_RADIUS_M
  let lat2 := api.asin
    (api.sin lat1 * api.cos angDist + api.cos lat1 * api.sin angDist * api.cos brg)
  let lon2 := lon1 + api.atan2
    (api.sin brg * api.sin angDist * api.cos lat1)
    (api.cos angDist - api.sin lat1 * api.sin lat2)
  (degreesA api lat2, degreesA api lon2)

/-- GeographyUtils.destination_point: builds a Coordinate from the raw
destination, so it raises ValueError when the result is out of range. -/
def destination_point (api : MathApi α) (c : Coord α) (distM brgDeg : α) :
    Except PyErr (Coord α) :=
  let p := rawDestination api c distM brgDeg
  mkCoord p.1 p.2

/-- GeographyUtils.interpolate_coordinates: linear interpolation in
lat/lon space, constructing (and hence validating) a Coordinate. -/
def interpolate_coordinates (c1 c2 : Coord α) (fraction : α) :
    Except PyErr (Coord α) :=
  mkCoord (c1.lat + (c2.lat - c1.lat) * fraction)
    (c1.lon + (c2.lon - c1.lon) * fraction)

/-- Route properties record returned by calculate_route_metrics. -/
structure RouteProps (α : Type) where
  distance_m : α
  duration_s : α
  algorithm : String
  waypoint_count : ℕ
  estimated_speed_kmh : α
  route_type : String
deriving Repr, DecidableEq

/-- Sum of consecutive haversine distances along a waypoint list. -/
def totalDistance (api : MathApi α) : List (Coord α) → α
  | [] => 0
  | [_] => 0
  | a :: b :: rest => haversine api a b + totalDistance api (b :: rest)

/-- RouteGenerator._determine_route_type, with the thresholds from
config.DISTANCE_THRESHOLDS. -/
def determineRouteType (distM : α) (waypoints : List (Coord α)) : String :=
  if distM < 5000 then "urban"
  else if distM > 20000 then "highway"
  else if waypoints.length > 10 then "suburban"
  else "rural"

/-- Average speed table from config.SPEEDS. -/
def speedFor (routeType : String) : α :=
  if routeType = "urban" then 35
  else if routeType = "suburban" then 50
  else if routeType = "highway" then 80
  else 60

/-- RouteGenerator._empty_metrics: the zeroed record for invalid routes. -/
def emptyMetrics (alg : String) : RouteProps α :=
  { distance_m := 0, duration_s := 0, algorithm := alg,
    waypoint_count := 0, estimated_speed_kmh := 0, route_type := "unknown" }

/-- RouteGenerator.calculate_route_metrics: distance, duration and
classification of a waypoint list (traffic multiplier 0.7, turn penalty
5 seconds per interior waypoint). -/
def calculate_route_metrics (api : MathApi α) (waypoints : List (Coord α))
    (alg : String) : RouteProps α :=
  if waypoints.length < 2 then emptyMetrics alg
  else
    let td := totalDistance api waypoints
    let rt := determineRouteType td waypoints
    let avgSpeed := speedFor rt * (7 / 10 : α)
    let durationS := td / 1000 / avgSpeed * 3600 + ((waypoints.length - 2 : ℕ) : α) * 5
    { distance_m := roundTo1 td, duration_s := roundTo1 durationS,
      algorithm := alg, waypoint_count := waypoints.length,
      estimated_speed_kmh := roundTo1 avgSpeed, route_type := rt }

/-- DirectRouter.generate_route: exactly the two requested points. -/
def directRoute (s e : Coord α) : List (Coord α) := [s, e]

/-- SmartRouter._generate_curved_waypoints.  The injected random stream u
supplies the two uniform draws per interior waypoint, in call order. -/
def curvedWaypoints (api : MathApi α) (u : ℕ → α) (s e : Coord α)
    (numWaypoints : ℕ) (detourFactor : α) : Except PyErr (List (Coord α)) :=
  if numWaypoints ≤ 2 then .ok [s, e]
  else do
    let baseBearing := bearingA api s e
    let td := haversine api s e
    let interior ← (List.range (numWaypoints - 2)).mapM (fun j => do
      let progress := ((j + 1 : ℕ) : α) / ((numWaypoints : α) - 1)
      let basePoint ← interpolate_coordinates s e progress
      let detourDistance := td * (detourFactor - 1) * (3 / 10 : α)
      let detourBearing := baseBearing + u (2 * j)
      let curveOffset := api.sin (progress * api.pi) * detourDistance
      let finalBearing := detourBearing + u (2 * j + 1)
      destination_point api basePoint curveOffset finalBearing)
    .ok (s :: (interior ++ [e]))

/-- SmartRouter.generate_route: profile selection by distance, with the
waypoint-count and detour-factor parameters of config.SMART_ROUTING
(density 0.3, urban factor 1.4, highway factor 1.1, base factor 1.2). -/
def smartRoute (api : MathApi α) (u : ℕ → α) (s e : Coord α) :
    Except PyErr (List (Coord α)) :=
  let d := haversine api s e
  if d < 50 then .ok [s, e]
  else if d < 5000 then
    curvedWaypoints api u s e
      (max 3 (pytrunc (d / 1000 * (3 / 10 : α) * 3))).toNat (14 / 10 : α)
  else if d > 20000 then
    curvedWaypoints api u s e
      (max 2 (pytrunc (d / 1000 * (3 / 10 : α) * (1 / 2 : α)))).toNat (11 / 10 : α)
  else
    curvedWaypoints api u s e
      (max 2 (pytrunc (d / 1000 * (3 / 10 : α)))).toNat (12 / 10 : α)

/-- One iteration of the GridRouter waypoint loop: odd steps move along
longitude, even steps along latitude; the constructed Coordinate is
validated.  The state is the current point and the accumulated interior
waypoints. -/
def gridStep (s : Coord α) (latDiff lonDiff : α) (totalBlocks : ℕ)
    (st : Coord α × List (Coord α)) (i : ℕ) :
    Except PyErr (Coord α × List (Coord α)) := do
  let progress := (i : α) / (totalBlocks : α)
  let c ←
    if i % 2 = 1 then mkCoord st.1.lat (s.lon + lonDiff * progress)
    else mkCoord (s.lat + latDiff * progress) st.1.lon
  .ok (c, st.2 ++ [c])

/-- GridRouter.generate_route: staircase path on an approximate street
grid, block size 0.5 km, at most 14 interior waypoints. -/
def gridRoute (api : MathApi α) (s e : Coord α) :
    Except PyErr (List (Coord α)) :=
  let blockSizeM := (5 / 10 : α) * 1000
  let d := haversine api s e
  if d < 50 then .ok [s, e]
  else
    let latDiff := e.lat - s.lat
    let lonDiff := e.lon - s.lon
    let blocksLat := |latDiff| / (blockSizeM / 111000)
    let blocksLon := |lonDiff| / (blockSizeM / (111000 * api.cos (radiansA api s.lat)))
    let totalBlocks := (pytrunc (blocksLat + blocksLon)).toNat
    if totalBlocks ≤ 2 then .ok [s, e]
    else do
      let st ← (List.range' 1 (min totalBlocks 15 - 1)).foldlM
        (gridStep s latDiff lonDiff totalBlocks) (s, [])
      .ok (s :: (st.2 ++ [e]))

/-- CurvedRouter.generate_route: 2 km segments (at most 20), cosine
lateral offsets perpendicular to the base bearing; the random stream u
supplies one draw per interior segment boundary. -/
def curvedRoute (api : MathApi α) (u : ℕ → α) (s e : Coord α) :
    Except PyErr (List (Coord α)) :=
  let segmentLengthM := (2 : α) * 1000
  let d := haversine api s e
  if d < segmentLengthM then .ok [s, e]
  else
    let numSegments := min (pytrunc (d / segmentLengthM)).toNat 20
    if numSegments ≤ 1 then .ok [s, e]
    else do
      let baseBearing := bearingA api s e
      let interior ← (List.range (numSegments - 1)).mapM (fun j => do
        let progress := ((j + 1 : ℕ) : α) / (numSegments : α)
        let basePoint ← interpolate_coordinates s e progress
        let curveOffset := api.cos (progress * 2 * api.pi) * d * (5 / 10 : α) * (1 / 10 : α)
        let bearingVariation := (2 / 10 : α) * u j
        let curveBearing := baseBearing + 90 + bearingVariation
        destination_point api basePoint |curveOffset| curveBearing)
      .ok (s :: (interior ++ [e]))

/-- Endpoint overwriting used by the graph and database backed providers:
waypoints[0] = start followed by waypoints[-1] = end whenever the list is
nonempty, else the direct pair. -/
def fixEndpoints (s e : Coord α) (ws : List (Coord α)) : List (Coord α) :=
  if ws.isEmpty then [s, e]
  else (ws.set 0 s).set (ws.length - 1) e

/-- OSMGraphRouter.generate_route after the shortest-path query: an empty
path falls back to the direct pair, otherwise the node coordinates are
materialised and the endpoints overwritten in place. -/
def osmRouteFromPath (s e : Coord α) (pathNodes : List (α × α)) :
    Except PyErr (List (Coord α)) :=
  if pathNodes.isEmpty then .ok [s, e]
  else do
    let ws ← pathNodes.mapM (fun p => mkCoord p.1 p.2)
    .ok (fixEndpoints s e ws)

/-- Environment visible to the PostgreSQL-backed provider: whether the
connection succeeds, whether the two pgRouting tables are present, the
snapped vertex ids (if any) and the GeoJSON coordinates of the shortest
path (if any). -/
structure PGEnv (α : Type) where
  connOk : Bool
  verticesTable : Bool
  waysTable : Bool
  snapStart : Option Int
  snapEnd : Option Int
  pathGeojson : Option (List (α × α))

/-- PGRoutingRouter.generate_route control flow: a failed connection or a
missing schema table raises; a failed endpoint snap or a missing/empty
path geometry degrades to the direct two-point line; otherwise the path
coordinates are materialised and the endpoints overwritten. -/
def pgGenerateRoute (env : PGEnv α) (s e : Coord α) :
    Except PyErr (List (Coord α)) :=
  if ¬ env.connOk then .error (.dbError "could not connect to server")
  else if ¬ env.verticesTable then
    .error (.runtimeError "ways_vertices_pgr missing; load OSM via osm2pgrouting")
  else if ¬ env.waysTable then
    .error (.runtimeError "ways table missing; load OSM via osm2pgrouting")
  else
    match env.snapStart, env.snapEnd with
    | some _, some _ =>
      match env.pathGeojson with
      | none => .ok [s, e]
      | some coords => do
        let ws ← coords.mapM (fun p => mkCoord p.2 p.1)
        if ws.isEmpty then .ok [s, e] else .ok (fixEndpoints s e ws)
    | _, _ => .ok [s, e]

/-- GeoJSON feature produced by RoutingService._create_geojson_feature. -/
structure GeoFeature (α : Type) where
  featureType : String
  properties : RouteProps α
  geometryType : String
  coordinates : List (α × α)
deriving Repr, DecidableEq

/-- Python list slicing with a positive stride: elements at indices
0, step, 2*step, ... of the list. -/
def sliceStep : List β → ℕ → List β
  | [], _ => []
  | x :: xs, step => x :: sliceStep (xs.drop (step - 1)) step
termination_by l => l.length
decreasing_by simp only [List.length_cons]; have := List.length_drop (step - 1) xs; omega

/-- RoutingService._create_geojson_feature: tuple conversion, the
downsampling step for more than max_coordinates = 200 points (stride
len // 200, true final point appended), and feature assembly. -/
def create_geojson_feature (waypoints : List (Coord α)) (metrics : RouteProps α) :
    GeoFeature α :=
  let coordinates := waypoints.map Coord.toTuple
  let coordinates :=
    if 200 < coordinates.length then
      sliceStep coordinates (coordinates.length / 200) ++
        (waypoints.getLast?.map Coord.toTuple).toList
    else coordinates
  { featureType := "Feature", properties := metrics,
    geometryType := "LineString", coordinates := coordinates }

/-- RoutingService.get_route with the selected provider abstracted as a
function from validated endpoints to a generation outcome: coordinates
are validated first (ValueError propagates), then the provider runs with
no exception handling around it, then metrics and the GeoJSON feature
are assembled. -/
def serviceGetRoute (api : MathApi α)
    (provider : Coord α → Coord α → Except PyErr (List (Coord α)))
    (alg : String) (startLat startLon endLat endLon : α) :
    Except PyErr (GeoFeature α) := do
  let s ← mkCoord startLat startLon
  let e ← mkCoord endLat endLon
  let ws ← provider s e
  .ok (create_geojson_feature ws (calculate_route_metrics api ws alg))

/-- HTTP status produced by the Flask route handler in app.py: 200 on
success, 400 for ValueError, 500 for any other uncaught exception. -/
def appRouteStatus (res : Except PyErr (GeoFeature α)) : ℕ :=
  match res with
  | .ok _ => 200
  | .error (.valueError _) => 400
  | .error _ => 500

/-- Hazard zone record as seen by the API views (radars table row). -/
structure RadarRec (α : Type) where
  id : ℕ
  lat : α
  lon : α
  verified : Bool
  active : Bool
  updatedAt : ℕ
deriving Repr, DecidableEq

/-- Base queryset of both views: active records, and for unauthenticated
callers only the verified ones. -/
def visibleRecs (auth : Bool) (db : List (RadarRec α)) : List (RadarRec α) :=
  db.filter (fun r => r.active && (auth || r.verified))

/-- Local haversine helper defined inside the API views (argument order
lon1 lat1 lon2 lat2, radius 6371000). -/
def viewHaversine (api : MathApi α) (lon1 lat1 lon2 lat2 : α) : α :=
  let lon1r := radiansA api lon1
  let lat1r := radiansA api lat1
  let lon2r := radiansA api lon2
  let lat2r := radiansA api lat2
  let dlon := lon2r - lon1r
  let dlat := lat2r - lat1r
  let a := (api.sin (dlat / 2)) ^ 2 +
    api.cos lat1r * api.cos lat2r * (api.sin (dlon / 2)) ^ 2
  2 * (6371000 : α) * api.asin (api.sqrt a)

/-- Bounding-box prefilter shared by the nearby and delta views: the
degree window is radiusM / 111000 in latitude and the cosine-corrected
analogue in longitude, with the Python or-fallback to 1e-6 when the
cosine is exactly zero. -/
def bboxFilter (api : MathApi α) (plat plon radiusM : α)
    (l : List (RadarRec α)) : List (RadarRec α) :=
  let c := api.cos (radiansA api plat)
  let cos0 := if c = 0 then (1 / 1000000 : α) else c
  let degLat := radiusM / 111000
  let degLon := radiusM / (111000 * cos0)
  l.filter (fun r =>
    plat - degLat ≤ r.lat ∧ r.lat ≤ plat + degLat ∧
    plon - degLon ≤ r.lon ∧ r.lon ≤ plon + degLon)

/-- Maximum updated_at over a record list, None when empty (the SQL Max
aggregate / Python max with default None). -/
def maxUpd : List (RadarRec α) → Option ℕ
  | [] => none
  | r :: rs =>
    match maxUpd rs with
    | none => some r.updatedAt
    | some m => some (max r.updatedAt m)

/-- Scope of a delta-sync request: the whole visible set when no point is
given, otherwise the bbox-prefiltered records within the haversine
radius (the non-GIS code path of radars_updates_view). -/
def deltaScope (api : MathApi α) (db : List (RadarRec α)) (auth : Bool)
    (q : Option (α × α × α)) : List (RadarRec α) :=
  let base := visibleRecs auth db
  match q with
  | none => base
  | some (lat, lon, radiusKm) =>
    (bboxFilter api lat lon (radiusKm * 1000) base).filter
      (fun r => viewHaversine api lon lat r.lon r.lat ≤ radiusKm * 1000)

/-- Delta-sync response: version token (None models the '0' sentinel
echo), count, and the returned records. -/
structure DeltaResponse (α : Type) where
  version : Option ℕ
  count : ℕ
  radars : List (RadarRec α)
deriving Repr, DecidableEq

/-- radars_updates_view (non-GIS path): compute the scope, take the
maximum updated_at over it as the new token, and unless the request
token is the full-resync sentinel keep only records strictly newer than
the request token.  When the scope has no maximum the request token is
echoed back. -/
def radarsUpdates (api : MathApi α) (db : List (RadarRec α)) (auth : Bool)
    (q : Option (α × α × α)) (since : Option ℕ) : DeltaResponse α :=
  let scope := deltaScope api db auth q
  let latest := maxUpd scope
  let recs :=
    match since with
    | none => scope
    | some t => scope.filter (fun r => t < r.updatedAt)
  let version :=
    match latest with
    | some m => some m
    | none => since
  { version := version, count := recs.length, radars := recs }

/-- Effective result limit of radars_nearby_view: a parsed integer is
clamped to [1, 100]; a malformed parameter falls back to 10. -/
def effLimit (limitParam : Option ℤ) : ℕ :=
  match limitParam with
  | none => 10
  | some n => (max 1 (min 100 n)).toNat

/-- Result row of the nearby view: record id with its rounded distance. -/
structure NearbyItem (α : Type) where
  id : ℕ
  distance_m : α
deriving Repr, DecidableEq

/-- Insertion into a list sorted by distance. -/
def insertByDist (x : NearbyItem α) : List (NearbyItem α) → List (NearbyItem α)
  | [] => [x]
  | y :: ys =>
    if x.distance_m ≤ y.distance_m then x :: y :: ys
    else y :: insertByDist x ys

/-- Ascending sort by distance. -/
def sortByDist : List (NearbyItem α) → List (NearbyItem α)
  | [] => []
  | x :: xs => insertByDist x (sortByDist xs)

/-- radars_nearby_view result list: a max_distance of at most zero is
discarded, the bbox prefilter uses max_distance or the 5 km default,
candidates beyond max_distance (when given) are dropped, and the sorted
items are truncated to the effective limit. -/
def nearbyResults (api : MathApi α) (db : List (RadarRec α)) (auth : Bool)
    (plat plon : α) (maxDistance : Option α) (limitParam : Option ℤ) :
    List (NearbyItem α) :=
  let maxDistance := match maxDistance with
    | some v => if v ≤ 0 then none else some v
    | none => none
  let md := maxDistance.getD 5000
  let candidates := bboxFilter api plat plon md (visibleRecs auth db)
  let items := (candidates.filter (fun r =>
      match maxDistance with
      | none => true
      | some m => viewHaversine api plon plat r.lon r.lat ≤ m)).map
    (fun r => { id := r.id,
                distance_m := roundTo2 (viewHaversine api plon plat r.lon r.lat) })
  (sortByDist items).take (effLimit limitParam)

/-- Executable stub instantiation of the math bundle over the rationals,
used to evaluate the embedding at concrete inputs. -/
def trivApi : MathApi ℚ :=
  { pi := 0, sin := fun _ => 0, cos := fun _ => 0, asin := fun _ => 0,
    atan2 := fun _ _ => 0, sqrt := fun _ => 0 }

/-- Real atan2 with the standard quadrant conventions of math.atan2. -/
noncomputable def ratan2 (y x : ℝ) : ℝ :=
  if 0 < x then Real.arctan (y / x)
  else if x < 0 then
    (if 0 ≤ y then Real.arctan (y / x) + Real.pi
     else Real.arctan (y / x) - Real.pi)
  else if 0 < y then Real.pi / 2
  else if y < 0 then -(Real.pi / 2)
  else 0

/-- Real instantiation of the math bundle: the semantics of the Python
math module on a spherical earth. -/
noncomputable def realApi : MathApi ℝ :=
  { pi := Real.pi, sin := Real.sin, cos := Real.cos, asin := Real.arcsin,
    atan2 := ratan2, sqrt := Real.sqrt }

section Helpers

/-- Successful bind in the Except monad decomposes into two successes. -/
theorem except_bind_ok {ε β γ : Type} {m : Except ε β} {f : β → Except ε γ}
    {c : γ} : (m >>= f) = .ok c ↔ ∃ b, m = .ok b ∧ f b = .ok c := by
  cases m <;> simp [Bind.bind, Except.bind]

/-- The grid fold extends the accumulated interior list by exactly one
waypoint per visited index. -/
theorem gridFold_length (s : Coord α) (latDiff lonDiff : α) (tb : ℕ)
    (l : List ℕ) (st : Coord α × List (Coord α))
    (res : Coord α × List (Coord α))
    (h : l.foldlM (gridStep s latDiff lonDiff tb) st = .ok res) :
    res.2.length = st.2.length + l.length := by
  induction l generalizing st with
  | nil =>
    simp only [List.foldlM_nil] at h
    cases h
    simp
  | cons i l ih =>
    rw [List.foldlM_cons] at h
    rcases except_bind_ok.mp h with ⟨st1, hst1, hrest⟩
    have hlen1 : st1.2.length = st.2.length + 1 := by
      simp only [gridStep] at hst1
      split at hst1 <;>
      · rcases except_bind_ok.mp hst1 with ⟨c, _, hok⟩
        cases hok
        simp
    have := ih st1 hrest
    simp only [List.length_cons]
    omega

/-- Any successful run of the smart interior-waypoint builder returns
either the direct pair or the start point, some interior list, and the
end point. -/
theorem curvedWaypoints_shape (api : MathApi α) (u : ℕ → α) (s e : Coord α)
    (n : ℕ) (f : α) (ws : List (Coord α))
    (h : curvedWaypoints api u s e n f = .ok ws) :
    ws = [s, e] ∨ ∃ l, ws = s :: (l ++ [e]) := by
  simp only [curvedWaypoints] at h
  split at h
  · cases h; exact Or.inl rfl
  · rcases except_bind_ok.mp h with ⟨l, _, hok⟩
    cases hok
    exact Or.inr ⟨l, rfl⟩

/-- Any successful smart route is the direct pair or start-interior-end. -/
theorem smartRoute_shape (api : MathApi α) (u : ℕ → α) (s e : Coord α)
    (ws : List (Coord α)) (h : smartRoute api u s e = .ok ws) :
    ws = [s, e] ∨ ∃ l, ws = s :: (l ++ [e]) := by
  simp only [smartRoute] at h
  split at h
  · cases h; exact Or.inl rfl
  · split at h
    · exact curvedWaypoints_shape _ _ _ _ _ _ _ h
    · split at h
      · exact curvedWaypoints_shape _ _ _ _ _ _ _ h
      · exact curvedWaypoints_shape _ _ _ _ _ _ _ h

/-- Any successful grid route is the direct pair or start-interior-end. -/
theorem gridRoute_shape (api : MathApi α) (s e : Coord α)
    (ws : List (Coord α)) (h : gridRoute api s e = .ok ws) :
    ws = [s, e] ∨ ∃ l, ws = s :: (l ++ [e]) := by
  simp only [gridRoute] at h
  split at h
  · cases h; exact Or.inl rfl
  · split at h
    · cases h; exact Or.inl rfl
    · rcases except_bind_ok.mp h with ⟨st, _, hok⟩
      cases hok
      exact Or.inr ⟨st.2, rfl⟩

/-- Any successful curved route is the direct pair or start-interior-end. -/
theorem curvedRoute_shape (api : MathApi α) (u : ℕ → α) (s e : Coord α)
    (ws : List (Coord α)) (h : curvedRoute api u s e = .ok ws) :
    ws = [s, e] ∨ ∃ l, ws = s :: (l ++ [e]) := by
  simp only [curvedRoute] at h
  split at h
  · cases h; exact Or.inl rfl
  · split at h
    · cases h; exact Or.inl rfl
    · rcases except_bind_ok.mp h with ⟨l, _, hok⟩
      cases hok
      exact Or.inr ⟨l, rfl⟩

/-- Start-interior-end lists have the requested endpoints. -/
theorem shape_endpoints {s e : Coord α} {ws : List (Coord α)}
    (h : ws = [s, e] ∨ ∃ l, ws = s :: (l ++ [e])) :
    ws.head? = some s ∧ ws.getLast? = some e := by
  rcases h with h | ⟨l, h⟩ <;> subst h
  · exact ⟨rfl, rfl⟩
  · refine ⟨rfl, ?_⟩
    rw [show (s :: (l ++ [e])) = (s :: l) ++ [e] by simp]
    exact List.getLast?_concat _

/-- Setting the final entry of a nonempty list makes it the last one. -/
theorem getLast?_set_last (l : List (Coord α)) (e : Coord α) (h : l ≠ []) :
    (l.set (l.length - 1) e).getLast? = some e := by
  rw [List.getLast?_eq_getElem?, List.length_set]
  refine List.getElem?_set_self ?_
  cases l with
  | nil => exact absurd rfl h
  | cons a t => simp

/-- Successful monadic map over Except preserves the list length. -/
theorem mapM_ok_length {β γ : Type} {f : β → Except PyErr γ} {l : List β}
    {l' : List γ} (h : l.mapM f = .ok l') : l'.length = l.length := by
  induction l generalizing l' with
  | nil =>
    rw [List.mapM_nil] at h
    cases h
    rfl
  | cons x xs ih =>
    rw [List.mapM_cons] at h
    rcases except_bind_ok.mp h with ⟨y, _, h2⟩
    rcases except_bind_ok.mp h2 with ⟨ys, hys, h3⟩
    cases h3
    simp [ih hys]

/-- Overwriting the first and last entries of a list with at least two
elements yields a list starting at the first and ending at the second
replacement. -/
theorem fixEndpoints_endpoints (s e : Coord α) (ws : List (Coord α))
    (h : 2 ≤ ws.length) :
    (fixEndpoints s e ws).head? = some s ∧
    (fixEndpoints s e ws).getLast? = some e := by
  match ws, h with
  | a :: b :: t, _ =>
    have hset : fixEndpoints s e (a :: b :: t) =
        (s :: b :: t).set ((s :: b :: t).length - 1) e := by
      simp [fixEndpoints]
    rw [hset]
    constructor
    · have hlen : (s :: b :: t).length - 1 = t.length + 1 := by simp
      rw [hlen, List.set_cons_succ]
      rfl
    · exact getLast?_set_last _ _ (by simp)

/-- Fuel-indexed auxiliary for the slice length computation. -/
theorem sliceStep_length_aux {β : Type} (s : ℕ) (hs : 1 ≤ s) :
    ∀ (n : ℕ) (l : List β), l.length ≤ n →
      (sliceStep l s).length = (l.length + s - 1) / s := by
  intro n
  induction n with
  | zero =>
    intro l hl
    cases l with
    | nil =>
      simp only [sliceStep, List.length_nil]
      exact (Nat.div_eq_of_lt (by omega)).symm
    | cons x xs => simp at hl
  | succ n ih =>
    intro l hl
    cases l with
    | nil =>
      simp only [sliceStep, List.length_nil]
      exact (Nat.div_eq_of_lt (by omega)).symm
    | cons x xs =>
      rw [sliceStep]
      simp only [List.length_cons]
      rw [ih (xs.drop (s - 1)) (by simp at hl ⊢; omega), List.length_drop]
      have hm : xs.length + 1 + s - 1 = xs.length + s := by omega
      rw [hm, Nat.add_div_right _ (by omega)]
      rcases le_or_lt (s - 1) xs.length with hc | hc
      · have h1 : xs.length - (s - 1) + s - 1 = xs.length := by omega
        rw [h1]
      · have h1 : xs.length - (s - 1) = 0 := by omega
        rw [h1, Nat.div_eq_of_lt (by omega : 0 + s - 1 < s),
          Nat.div_eq_of_lt (by omega : xs.length < s)]

/-- The downsampled list has length (n + step - 1) / step for a positive
stride (the length of a Python extended slice). -/
theorem sliceStep_length {β : Type} (l : List β) (s : ℕ) (hs : 1 ≤ s) :
    (sliceStep l s).length = (l.length + s - 1) / s :=
  sliceStep_length_aux s hs l.length l le_rfl

end Helpers

/-- Haversine evaluates to zero under the stub math bundle. -/
theorem haversine_triv (c1 c2 : Coord ℚ) : haversine trivApi c1 c2 = 0 := by
  simp [haversine, trivApi, EARTH_RADIUS_M]

/-- Concrete coordinates with small entries are valid. -/
theorem validCoord_simple (x y : ℚ) (h1 : -90 ≤ x) (h2 : x ≤ 90)
    (h3 : -180 ≤ y) (h4 : y ≤ 180) : validCoord (⟨x, y⟩ : Coord ℚ) :=
  ⟨h1, h2, h3, h4⟩

/-- C4: for every valid pair, the Direct generator returns exactly the
two points start and end, and the distance metric computed for this
route equals the haversine distance between them (Earth radius 6371000
meters) within one-decimal rounding tolerance. -/
theorem C4_direct_two_points (api : MathApi α) (s e : Coord α)
    (hs : validCoord s) (he : validCoord e) :
    directRoute s e = [s, e] ∧ (directRoute s e).length = 2 ∧
    |(calculate_route_metrics api (directRoute s e) "direct").distance_m -
      haversine api s e| ≤ 1 / 20 := by
  refine ⟨rfl, rfl, ?_⟩
  have h1 : (calculate_route_metrics api (directRoute s e) "direct").distance_m
      = roundTo1 (haversine api s e) := by
    simp [calculate_route_metrics, directRoute, totalDistance]
  rw [h1, roundTo1]
  have h2 := abs_sub_round (α := α) (10 * haversine api s e)
  have h3 : ((round (10 * haversine api s e) : ℤ) : α) / 10 - haversine api s e
      = (((round (10 * haversine api s e) : ℤ) : α) - 10 * haversine api s e) / 10 := by
    ring
  rw [h3, abs_div, abs_of_pos (show (0:α) < 10 by norm_num), abs_sub_comm]
  linarith

/-- Witness for C4 at a concrete valid pair over the rationals. -/
theorem C4_witness :
    directRoute (⟨0, 0⟩ : Coord ℚ) ⟨1, 1⟩ = [⟨0, 0⟩, ⟨1, 1⟩] ∧
    (directRoute (⟨0, 0⟩ : Coord ℚ) ⟨1, 1⟩).length = 2 ∧
    |(calculate_route_metrics trivApi (directRoute (⟨0, 0⟩ : Coord ℚ) ⟨1, 1⟩)
        "direct").distance_m - haversine trivApi ⟨0, 0⟩ ⟨1, 1⟩| ≤ 1 / 20 :=
  C4_direct_two_points trivApi ⟨0, 0⟩ ⟨1, 1⟩
    (validCoord_simple 0 0 (by norm_num) (by norm_num) (by norm_num) (by norm_num))
    (validCoord_simple 1 1 (by norm_num) (by norm_num) (by norm_num) (by norm_num))

/-- C5: for every valid pair, a successful Grid route has at most 16
coordinates (at most 15 generated points plus the forced endpoint). -/
theorem C5_grid_at_most_16 (api : MathApi α) (s e : Coord α)
    (hs : validCoord s) (he : validCoord e) (ws : List (Coord α))
    (h : gridRoute api s e = .ok ws) : ws.length ≤ 16 := by
  simp only [gridRoute] at h
  split at h
  · cases h; simp
  · split at h
    · cases h; simp
    · rcases except_bind_ok.mp h with ⟨st, hfold, hok⟩
      cases hok
      have hl := gridFold_length _ _ _ _ _ _ _ hfold
      simp at hl
      have hmin : min ((pytrunc (|e.lat - s.lat| / (5 / 10 * 1000 / 111000) +
          |e.lon - s.lon| / (5 / 10 * 1000 / (111000 * api.cos (radiansA api s.lat))))).toNat)
          15 ≤ 15 := min_le_right _ _
      simp only [List.length_cons, List.length_append, List.length_nil]
      omega

/-- Witness for C5 at a concrete valid pair over the rationals. -/
theorem C5_witness :
    gridRoute trivApi (⟨0, 0⟩ : Coord ℚ) ⟨1, 1⟩ = .ok [⟨0, 0⟩, ⟨1, 1⟩] ∧
    ([⟨0, 0⟩, ⟨1, 1⟩] : List (Coord ℚ)).length ≤ 16 := by
  have hg : gridRoute trivApi (⟨0, 0⟩ : Coord ℚ) ⟨1, 1⟩ = .ok [⟨0, 0⟩, ⟨1, 1⟩] := by
    rw [gridRoute]
    norm_num [haversine_triv]
  exact ⟨hg, C5_grid_at_most_16 trivApi ⟨0, 0⟩ ⟨1, 1⟩
    (validCoord_simple 0 0 (by norm_num) (by norm_num) (by norm_num) (by norm_num))
    (validCoord_simple 1 1 (by norm_num) (by norm_num) (by norm_num) (by norm_num))
    _ hg⟩

/-- C7: a point sequence with fewer than two points yields the zeroed
"unknown" properties record from the metrics computation, for every
algorithm name, without failing. -/
theorem C7_short_sequence_metrics (api : MathApi α) (ws : List (Coord α))
    (alg : String) (h : ws.length < 2) :
    (calculate_route_metrics api ws alg).distance_m = 0 ∧
    (calculate_route_metrics api ws alg).duration_s = 0 ∧
    (calculate_route_metrics api ws alg).waypoint_count = 0 ∧
    (calculate_route_metrics api ws alg).estimated_speed_kmh = 0 ∧
    (calculate_route_metrics api ws alg).route_type = "unknown" := by
  simp [calculate_route_metrics, if_pos h, emptyMetrics]

/-- Witness for C7 on the empty sequence over the rationals. -/
theorem C7_witness :
    ([] : List (Coord ℚ)).length < 2 ∧
    ((calculate_route_metrics trivApi ([] : List (Coord ℚ)) "smart").distance_m = 0 ∧
     (calculate_route_metrics trivApi ([] : List (Coord ℚ)) "smart").duration_s = 0 ∧
     (calculate_route_metrics trivApi ([] : List (Coord ℚ)) "smart").waypoint_count = 0 ∧
     (calculate_route_metrics trivApi ([] : List (Coord ℚ)) "smart").estimated_speed_kmh = 0 ∧
     (calculate_route_metrics trivApi ([] : List (Coord ℚ)) "smart").route_type = "unknown") :=
  ⟨by norm_num, C7_short_sequence_metrics trivApi [] "smart" (by norm_num)⟩

/-- C1 counterexample: the OSM graph backend applied to a one-node
shortest path overwrites the single snapped node first with the start
and then with the end, so the returned list is the single point end and
its first element is not the requested start. -/
theorem C1_counterexample :
    osmRouteFromPath (⟨1, 1⟩ : Coord ℚ) ⟨2, 2⟩ [(5, 5)] = .ok [⟨2, 2⟩] ∧
    ([⟨2, 2⟩] : List (Coord ℚ)).head? ≠ some (⟨1, 1⟩ : Coord ℚ) := by
  constructor
  · rw [osmRouteFromPath]
    norm_num [mkCoord, fixEndpoints, List.mapM, List.mapM.loop,
      Bind.bind, Except.bind, Pure.pure, Except.pure]
  · simp [Coord.mk.injEq]

/-- C1 amended: the Direct generator and every successful run of the
Smart, Grid and Curved generators return a list whose first element is
the requested start and whose last element is the requested end; the
external graph backend guarantees the same only when the snapped node
path has at least two nodes. -/
theorem C1_amended_endpoints (api : MathApi α) (u : ℕ → α) (s e : Coord α)
    (hs : validCoord s) (he : validCoord e) :
    ((directRoute s e).head? = some s ∧ (directRoute s e).getLast? = some e) ∧
    (∀ ws, smartRoute api u s e = .ok ws →
      ws.head? = some s ∧ ws.getLast? = some e) ∧
    (∀ ws, gridRoute api s e = .ok ws →
      ws.head? = some s ∧ ws.getLast? = some e) ∧
    (∀ ws, curvedRoute api u s e = .ok ws →
      ws.head? = some s ∧ ws.getLast? = some e) ∧
    (∀ pathNodes ws, 2 ≤ pathNodes.length →
      osmRouteFromPath s e pathNodes = .ok ws →
      ws.head? = some s ∧ ws.getLast? = some e) := by
  refine ⟨shape_endpoints (Or.inl rfl), ?_, ?_, ?_, ?_⟩
  · intro ws h
    exact shape_endpoints (smartRoute_shape api u s e ws h)
  · intro ws h
    exact shape_endpoints (gridRoute_shape api s e ws h)
  · intro ws h
    exact shape_endpoints (curvedRoute_shape api u s e ws h)
  · intro pathNodes ws hlen h
    simp only [osmRouteFromPath] at h
    split at h
    · cases h
      exact shape_endpoints (Or.inl rfl)
    · rcases except_bind_ok.mp h with ⟨l, hmap, hok⟩
      cases hok
      exact fixEndpoints_endpoints s e l (by rw [mapM_ok_length hmap]; exact hlen)

/-- Witness for the amended C1 at a concrete valid pair. -/
theorem C1_witness :
    validCoord (⟨0, 0⟩ : Coord ℚ) ∧ validCoord (⟨1, 1⟩ : Coord ℚ) ∧
    ((directRoute (⟨0, 0⟩ : Coord ℚ) ⟨1, 1⟩).head? = some ⟨0, 0⟩ ∧
     (directRoute (⟨0, 0⟩ : Coord ℚ) ⟨1, 1⟩).getLast? = some ⟨1, 1⟩) :=
  ⟨validCoord_simple 0 0 (by norm_num) (by norm_num) (by norm_num) (by norm_num),
   validCoord_simple 1 1 (by norm_num) (by norm_num) (by norm_num) (by norm_num),
   (C1_amended_endpoints trivApi (fun _ => 0) ⟨0, 0⟩ ⟨1, 1⟩
     (validCoord_simple 0 0 (by norm_num) (by norm_num) (by norm_num) (by norm_num))
     (validCoord_simple 1 1 (by norm_num) (by norm_num) (by norm_num) (by norm_num))).1⟩

/-- C2 counterexample: a route of 201 waypoints exceeds max_coordinates,
the downsampling stride 201 divided by 200 is 1, so every point is kept
and the appended final point brings the output to 202 coordinates,
above the claimed cap of 200. -/
theorem C2_counterexample :
    ¬ ((create_geojson_feature (List.replicate 201 (⟨0, 0⟩ : Coord ℚ))
        (emptyMetrics "direct")).coordinates.length ≤ 200) := by
  have hmap : (List.replicate 201 (⟨0, 0⟩ : Coord ℚ)).map Coord.toTuple
      = List.replicate 201 ((0 : ℚ), (0 : ℚ)) := by
    rw [List.map_replicate]
    rfl
  have hfeat : (create_geojson_feature (List.replicate 201 (⟨0, 0⟩ : Coord ℚ))
      (emptyMetrics "direct")).coordinates
      = sliceStep (List.replicate 201 ((0 : ℚ), (0 : ℚ))) 1 ++ [((0 : ℚ), (0 : ℚ))] := by
    simp only [create_geojson_feature, hmap, List.length_replicate,
      List.getLast?_replicate]
    norm_num [Coord.toTuple]
  rw [hfeat, List.length_append, sliceStep_length _ 1 le_rfl]
  norm_num

/-- C2 amended: the assembled feature has at most 2 times
max_coordinates, that is 400, coordinate pairs (the stride
count // 200 with the appended endpoint reaches 400 at 399 input
points), and its last coordinate always equals the true final route
point. -/
theorem C2_amended_cap_and_endpoint (ws : List (Coord α)) (m : RouteProps α)
    (h : ws ≠ []) :
    (create_geojson_feature ws m).coordinates.length ≤ 400 ∧
    (create_geojson_feature ws m).coordinates.getLast?
      = ws.getLast?.map Coord.toTuple := by
  obtain ⟨w, hw⟩ := Option.isSome_iff_exists.mp (List.getLast?_isSome.mpr h)
  simp only [create_geojson_feature]
  split
  · rename_i hn
    rw [List.length_map] at hn
    constructor
    · simp only [List.length_append, List.length_map]
      rw [sliceStep_length _ _ (by omega : 1 ≤ ws.length / 200)]
      simp only [List.length_map]
      have hk1 : 1 ≤ ws.length / 200 := by omega
      have hub : ws.length ≤ 200 * (ws.length / 200) + 199 := by omega
      have hlt : (ws.length + ws.length / 200 - 1) / (ws.length / 200) < 400 := by
        rw [Nat.div_lt_iff_lt_mul (by omega : 0 < ws.length / 200)]
        omega
      have hone : (ws.getLast?.map Coord.toTuple).toList.length ≤ 1 := by
        rw [hw]
        simp
      omega
    · rw [hw]
      simp only [Option.map_some', Option.toList_some]
      rw [List.getLast?_concat]
  · constructor
    · rename_i hn
      rw [List.length_map] at hn
      rw [List.length_map]
      omega
    · rw [List.getLast?_map]

/-- Witness for the amended C2 at a concrete one-point list. -/
theorem C2_witness :
    ([⟨0, 0⟩] : List (Coord ℚ)) ≠ [] ∧
    ((create_geojson_feature ([⟨0, 0⟩] : List (Coord ℚ))
        (emptyMetrics "direct")).coordinates.length ≤ 400 ∧
     (create_geojson_feature ([⟨0, 0⟩] : List (Coord ℚ))
        (emptyMetrics "direct")).coordinates.getLast?
      = ([⟨0, 0⟩] : List (Coord ℚ)).getLast?.map Coord.toTuple) :=
  ⟨by simp, C2_amended_cap_and_endpoint _ _ (by simp)⟩

/-- An empty maximum means the record list is empty. -/
theorem maxUpd_none {l : List (RadarRec α)} (h : maxUpd l = none) : l = [] := by
  cases l with
  | nil => rfl
  | cons r rs =>
    unfold maxUpd at h
    cases hm : maxUpd rs <;> rw [hm] at h <;> simp at h

/-- Every member's update stamp is bounded by the list maximum. -/
theorem le_maxUpd {l : List (RadarRec α)} {r : RadarRec α} (hr : r ∈ l)
    {m : ℕ} (h : maxUpd l = some m) : r.updatedAt ≤ m := by
  induction l generalizing m with
  | nil => cases hr
  | cons a t ih =>
    unfold maxUpd at h
    cases hm : maxUpd t with
    | none =>
      rw [hm] at h
      cases h
      have ht := maxUpd_none hm
      subst ht
      rw [List.mem_singleton] at hr
      subst hr
      exact le_rfl
    | some m2 =>
      rw [hm] at h
      cases h
      rcases List.mem_cons.mp hr with h1 | h1
      · subst h1
        exact le_max_left _ _
      · exact le_trans (ih h1 hm) (le_max_right _ _)

/-- C3 counterexample: with the pgRouting vertices table absent, the
provider raises a RuntimeError that RoutingService.get_route does not
catch, and the HTTP layer answers 500 instead of degrading the request
to a direct two-point route. -/
theorem C3_counterexample :
    appRouteStatus (serviceGetRoute trivApi
      (pgGenerateRoute (⟨true, false, true, some 1, some 2, none⟩ : PGEnv ℚ))
      "pg" 0 0 1 1) = 500 := by
  norm_num [serviceGetRoute, pgGenerateRoute, mkCoord, appRouteStatus,
    Bind.bind, Except.bind]

/-- Any non-ValueError failure of the provider surfaces as a 500. -/
theorem serviceGetRoute_error_status (api : MathApi α)
    (provider : Coord α → Coord α → Except PyErr (List (Coord α)))
    (alg : String) (slat slon elat elon : α) (s e : Coord α)
    (hs : mkCoord slat slon = .ok s) (he : mkCoord elat elon = .ok e)
    (herr : (∃ msg, provider s e = .error (.runtimeError msg)) ∨
      (∃ msg, provider s e = .error (.dbError msg))) :
    appRouteStatus (serviceGetRoute api provider alg slat slon elat elon) = 500 := by
  rcases herr with ⟨msg, h⟩ | ⟨msg, h⟩ <;>
    simp [serviceGetRoute, appRouteStatus, hs, he, h, Bind.bind, Except.bind]

/-- C3 amended: snap misses and missing or empty path geometry are
degraded by the database provider to the direct two-point line and the
request succeeds with status 200, but a failed connection or a missing
schema table raises an exception that get_route does not catch and the
HTTP layer answers 500. -/
theorem C3_amended_fallback (api : MathApi α) (env : PGEnv α)
    (alg : String) (slat slon elat elon : α) (s e : Coord α)
    (hs : mkCoord slat slon = .ok s) (he : mkCoord elat elon = .ok e) :
    ((env.connOk = true ∧ env.verticesTable = true ∧ env.waysTable = true ∧
      (env.snapStart = none ∨ env.snapEnd = none ∨ env.pathGeojson = none)) →
      pgGenerateRoute env s e = .ok [s, e] ∧
      appRouteStatus (serviceGetRoute api (pgGenerateRoute env) alg
        slat slon elat elon) = 200) ∧
    ((env.connOk = false ∨ env.verticesTable = false ∨ env.waysTable = false) →
      appRouteStatus (serviceGetRoute api (pgGenerateRoute env) alg
        slat slon elat elon) = 500) := by
  constructor
  · rintro ⟨hc, hv, hw, hsnap⟩
    have hpg : pgGenerateRoute env s e = .ok [s, e] := by
      unfold pgGenerateRoute
      rw [hc, hv, hw]
      rcases hsnap with h1 | h1 | h1
      · rw [h1]
        cases henv : env.snapEnd <;> simp
      · rw [h1]
        cases henv : env.snapStart <;> simp
      · rw [h1]
        cases h2 : env.snapStart <;> cases h3 : env.snapEnd <;> simp
    refine ⟨hpg, ?_⟩
    simp [serviceGetRoute, appRouteStatus, hs, he, hpg, Bind.bind, Except.bind]
  · intro herr
    refine serviceGetRoute_error_status api _ alg slat slon elat elon s e hs he ?_
    rcases herr with h | h | h
    · refine Or.inr ⟨"could not connect to server", ?_⟩
      unfold pgGenerateRoute
      rw [h]
      simp
    · cases hc : env.connOk
      · refine Or.inr ⟨"could not connect to server", ?_⟩
        unfold pgGenerateRoute
        rw [hc]
        simp
      · refine Or.inl ⟨"ways_vertices_pgr missing; load OSM via osm2pgrouting", ?_⟩
        unfold pgGenerateRoute
        rw [hc, h]
        simp
    · cases hc : env.connOk
      · refine Or.inr ⟨"could not connect to server", ?_⟩
        unfold pgGenerateRoute
        rw [hc]
        simp
      · cases hv : env.verticesTable
        · refine Or.inl ⟨"ways_vertices_pgr missing; load OSM via osm2pgrouting", ?_⟩
          unfold pgGenerateRoute
          rw [hc, hv]
          simp
        · refine Or.inl ⟨"ways table missing; load OSM via osm2pgrouting", ?_⟩
          unfold pgGenerateRoute
          rw [hc, hv, h]
          simp

/-- Witness for the amended C3: a snap miss degrades to the direct line
with status 200 at a concrete environment and coordinates. -/
theorem C3_witness :
    mkCoord (0 : ℚ) 0 = .ok ⟨0, 0⟩ ∧ mkCoord (1 : ℚ) 1 = .ok ⟨1, 1⟩ ∧
    (pgGenerateRoute (⟨true, true, true, some 1, some 2, none⟩ : PGEnv ℚ)
      (⟨0, 0⟩ : Coord ℚ) ⟨1, 1⟩ = .ok [⟨0, 0⟩, ⟨1, 1⟩] ∧
     appRouteStatus (serviceGetRoute trivApi
       (pgGenerateRoute (⟨true, true, true, some 1, some 2, none⟩ : PGEnv ℚ))
       "pg" 0 0 1 1) = 200) :=
  ⟨by norm_num [mkCoord], by norm_num [mkCoord],
   (C3_amended_fallback trivApi _ "pg" 0 0 1 1 ⟨0, 0⟩ ⟨1, 1⟩
     (by norm_num [mkCoord]) (by norm_num [mkCoord])).1
     ⟨rfl, rfl, rfl, Or.inr (Or.inr rfl)⟩⟩

/-- C6: a delta query with the full-resync sentinel returns every
in-scope record, its new token is the maximum update stamp over the
scope when one exists, and an immediately repeated query passing back
the returned token yields zero records. -/
theorem C6_delta_sync (api : MathApi α) (db : List (RadarRec α))
    (auth : Bool) (q : Option (α × α × α)) :
    (radarsUpdates api db auth q none).radars = deltaScope api db auth q ∧
    (∀ m, maxUpd (deltaScope api db auth q) = some m →
      (radarsUpdates api db auth q none).version = some m) ∧
    (radarsUpdates api db auth q
      ((radarsUpdates api db auth q none).version)).radars = [] := by
  refine ⟨rfl, ?_, ?_⟩
  · intro m hm
    simp [radarsUpdates, hm]
  · cases hm : maxUpd (deltaScope api db auth q) with
    | none =>
      have hempty := maxUpd_none hm
      simp only [radarsUpdates, hm, hempty]
      split <;> rfl
    | some m =>
      simp only [radarsUpdates, hm]
      rw [List.filter_eq_nil_iff]
      intro r hr
      have := le_maxUpd hr hm
      simp
      omega

/-- Witness for C6 on a concrete one-record dataset with a point and
radius scope. -/
theorem C6_witness :
    (radarsUpdates trivApi [⟨1, 0, 0, true, true, 5⟩] true
      (some (0, 0, 10)) none).radars
      = deltaScope trivApi [⟨1, 0, 0, true, true, 5⟩] true (some (0, 0, 10)) ∧
    maxUpd (deltaScope trivApi [⟨1, 0, 0, true, true, 5⟩] true
      (some (0, 0, 10))) = some 5 ∧
    (radarsUpdates trivApi [⟨1, 0, 0, true, true, 5⟩] true
      (some (0, 0, 10)) none).version = some 5 ∧
    (radarsUpdates trivApi [⟨1, 0, 0, true, true, 5⟩] true (some (0, 0, 10))
      ((radarsUpdates trivApi [⟨1, 0, 0, true, true, 5⟩] true
        (some (0, 0, 10)) none).version)).radars = [] := by
  have hscope : deltaScope trivApi [(⟨1, 0, 0, true, true, 5⟩ : RadarRec ℚ)]
      true (some (0, 0, 10)) = [⟨1, 0, 0, true, true, 5⟩] := by
    norm_num [deltaScope, visibleRecs, bboxFilter, viewHaversine, radiansA,
      trivApi, List.filter]
  have hmax : maxUpd (deltaScope trivApi [(⟨1, 0, 0, true, true, 5⟩ : RadarRec ℚ)]
      true (some (0, 0, 10))) = some 5 := by
    rw [hscope]
    rfl
  exact ⟨(C6_delta_sync trivApi _ true _).1, hmax,
    (C6_delta_sync trivApi _ true _).2.1 5 hmax,
    (C6_delta_sync trivApi _ true _).2.2⟩

/-- C9: the effective nearby-view limit is the parsed integer clamped to
the range 1 to 100, a malformed limit parameter silently defaults to 10,
and the returned result list never exceeds the effective limit, hence
never exceeds 100 results. -/
theorem C9_limit_clamp (api : MathApi α) (db : List (RadarRec α))
    (auth : Bool) (plat plon : α) (maxDistance : Option α) :
    (∀ n : ℤ, 100 < n → effLimit (some n) = 100) ∧
    (∀ n : ℤ, n < 1 → effLimit (some n) = 1) ∧
    effLimit none = 10 ∧
    (∀ limitParam, (nearbyResults api db auth plat plon maxDistance
      limitParam).length ≤ effLimit limitParam) ∧
    (∀ limitParam, effLimit limitParam ≤ 100) := by
  refine ⟨?_, ?_, rfl, ?_, ?_⟩
  · intro n hn
    simp only [effLimit]
    omega
  · intro n hn
    simp only [effLimit]
    omega
  · intro limitParam
    simp only [nearbyResults]
    exact List.length_take_le _ _
  · intro limitParam
    cases limitParam with
    | none => norm_num [effLimit]
    | some n =>
      simp only [effLimit]
      omega

/-- Witness for C9 at concrete limits over an empty dataset. -/
theorem C9_witness :
    effLimit (some 101) = 100 ∧ effLimit (some 0) = 1 ∧ effLimit none = 10 ∧
    (nearbyResults trivApi ([] : List (RadarRec ℚ)) true 0 0 none
      (some 101)).length ≤ effLimit (some 101) ∧
    effLimit (some 101) ≤ 100 :=
  ⟨(C9_limit_clamp trivApi [] true 0 0 none).1 101 (by norm_num),
   (C9_limit_clamp trivApi [] true 0 0 none).2.1 0 (by norm_num),
   (C9_limit_clamp trivApi [] true 0 0 none).2.2.1,
   (C9_limit_clamp trivApi ([] : List (RadarRec ℚ)) true 0 0 none).2.2.2.1 (some 101),
   (C9_limit_clamp trivApi ([] : List (RadarRec ℚ)) true 0 0 none).2.2.2.2 (some 101)⟩

/-- Coordinate construction succeeds exactly on in-range values. -/
theorem mkCoord_ok {lat lon : α} (h1 : -90 ≤ lat) (h2 : lat ≤ 90)
    (h3 : -180 ≤ lon) (h4 : lon ≤ 180) :
    mkCoord lat lon = .ok ⟨lat, lon⟩ := by
  unfold mkCoord
  rw [if_pos ⟨h1, h2⟩, if_pos ⟨h3, h4⟩]

/-- Coordinate construction raises the longitude ValueError when the
latitude is in range but the longitude exceeds 180. -/
theorem mkCoord_lon_too_big {lat lon : α} (h1 : -90 ≤ lat) (h2 : lat ≤ 90)
    (hlon : 180 < lon) :
    mkCoord lat lon = .error (.valueError "Invalid longitude") := by
  unfold mkCoord
  rw [if_pos ⟨h1, h2⟩, if_neg (fun h => absurd h.2 (not_le.mpr hlon))]

/-- The raw destination point of a due-east projection from the equator
near the antimeridian: one degree of arc east of longitude 179.9 lands
at raw longitude 180.9, with no normalisation. -/
theorem rawDestination_eq_overflow :
    rawDestination realApi ⟨0, 1799 / 10⟩ (6371000 * (Real.pi / 180)) 90
      = (0, 1809 / 10) := by
  have hπ := Real.pi_pos
  have hΔmem : Real.pi / 180 ∈ Set.Ioo (-(Real.pi / 2)) (Real.pi / 2) := by
    constructor <;> nlinarith
  have hcos : 0 < Real.cos (Real.pi / 180) := Real.cos_pos_of_mem_Ioo hΔmem
  simp only [rawDestination, radiansA, degreesA, realApi, EARTH_RADIUS_M]
  have e0 : (0 : ℝ) * Real.pi / 180 = 0 := by ring
  have e90 : (90 : ℝ) * Real.pi / 180 = Real.pi / 2 := by ring
  have eang : 6371000 * (Real.pi / 180) / 6371000 = Real.pi / 180 := by ring
  rw [e0, e90, eang, Real.sin_zero, Real.cos_zero, Real.cos_pi_div_two,
    Real.sin_pi_div_two]
  have elat : (0 : ℝ) * Real.cos (Real.pi / 180) +
      1 * Real.sin (Real.pi / 180) * 0 = 0 := by ring
  rw [elat, Real.arcsin_zero, Real.sin_zero]
  have ey : (1 : ℝ) * Real.sin (Real.pi / 180) * 1 = Real.sin (Real.pi / 180) := by
    ring
  have ex : Real.cos (Real.pi / 180) - 0 * 0 = Real.cos (Real.pi / 180) := by
    ring
  rw [ey, ex]
  have hatan : ratan2 (Real.sin (Real.pi / 180)) (Real.cos (Real.pi / 180))
      = Real.pi / 180 := by
    rw [ratan2, if_pos hcos, ← Real.tan_eq_sin_div_cos,
      Real.arctan_tan (by nlinarith) (by nlinarith)]
  rw [hatan, Prod.mk.injEq]
  constructor
  · simp
  · field_simp
    ring

/-- First half of C10: the destination primitive leaves the longitude
unnormalised past 180 and the Coordinate constructor then raises. -/
theorem destination_point_overflow :
    180 < (rawDestination realApi ⟨0, 1799 / 10⟩
      (6371000 * (Real.pi / 180)) 90).2 ∧
    destination_point realApi ⟨0, 1799 / 10⟩ (6371000 * (Real.pi / 180)) 90
      = .error (.valueError "Invalid longitude") := by
  constructor
  · rw [rawDestination_eq_overflow]
    norm_num
  · simp only [destination_point, rawDestination_eq_overflow]
    exact mkCoord_lon_too_big (by norm_num) (by norm_num) (by norm_num)

/-- Haversine of the due-north near-antimeridian test pair: exactly the
earth radius times the latitude difference in radians. -/
theorem curved_pair_haversine :
    haversine realApi ⟨0, 1799999 / 10000⟩ ⟨81 / 1000, 1799999 / 10000⟩
      = 6371000 * (81 / 1000 * Real.pi / 180) := by
  have hπ := Real.pi_pos
  have hpos : (0 : ℝ) < 81 / 1000 * Real.pi / 180 / 2 := by positivity
  have hlt : 81 / 1000 * Real.pi / 180 / 2 ≤ Real.pi / 2 := by nlinarith
  simp only [haversine, radiansA, realApi, EARTH_RADIUS_M]
  have e0 : (0 : ℝ) * Real.pi / 180 = 0 := by ring
  have edlat : (81 / 1000 * Real.pi / 180 - 0 * Real.pi / 180) / 2
      = 81 / 1000 * Real.pi / 180 / 2 := by ring
  have edlon : (1799999 / 10000 * Real.pi / 180
      - 1799999 / 10000 * Real.pi / 180) / 2 = 0 := by ring
  rw [edlat, edlon, Real.sin_zero]
  have ea : Real.sin (81 / 1000 * Real.pi / 180 / 2) ^ 2 +
      Real.cos (0 * Real.pi / 180) * Real.cos (81 / 1000 * Real.pi / 180) * 0 ^ 2
      = Real.sin (81 / 1000 * Real.pi / 180 / 2) ^ 2 := by ring
  rw [ea, Real.sqrt_sq (le_of_lt (Real.sin_pos_of_pos_of_lt_pi hpos
    (by nlinarith))), Real.arcsin_sin (by linarith) hlt]
  ring

/-- Bearing of the due-north test pair is zero degrees. -/
theorem curved_pair_bearing :
    bearingA realApi ⟨0, 1799999 / 10000⟩ ⟨81 / 1000, 1799999 / 10000⟩ = 0 := by
  have hπ := Real.pi_pos
  simp only [bearingA, radiansA, degreesA, realApi]
  have edlon : (1799999 / 10000 * Real.pi / 180
      - 1799999 / 10000 * Real.pi / 180) = 0 := by ring
  have e0 : (0 : ℝ) * Real.pi / 180 = 0 := by ring
  rw [edlon, e0, Real.sin_zero, Real.cos_zero]
  have ey : (0 : ℝ) * Real.cos (81 / 1000 * Real.pi / 180) = 0 := by ring
  have ex : (1 : ℝ) * Real.sin (81 / 1000 * Real.pi / 180) - 0 * 1
      = Real.sin (81 / 1000 * Real.pi / 180) := by ring
  rw [ey, ex]
  have hsin : 0 < Real.sin (81 / 1000 * Real.pi / 180) :=
    Real.sin_pos_of_pos_of_lt_pi (by positivity) (by nlinarith)
  have hatan : ratan2 0 (Real.sin (81 / 1000 * Real.pi / 180)) = 0 := by
    rw [ratan2, if_pos hsin, zero_div, Real.arctan_zero]
  rw [hatan]
  have e360 : (0 : ℝ) * 180 / Real.pi + 360 = 360 := by
    rw [zero_mul, zero_div, zero_add]
  rw [e360, pymod]
  have hfl : ((360 : ℝ) / 360) = 1 := by norm_num
  rw [hfl, Int.floor_one]
  norm_num

/-- The curved segment count of the test pair evaluates to four. -/
theorem curved_pair_segments :
    min (pytrunc (6371000 * (81 / 1000 * Real.pi / 180) / (2 * 1000))).toNat 20
      = 4 := by
  have h3 := Real.pi_gt_three
  have h315 := Real.pi_lt_d2
  have hq : (0 : ℝ) ≤ 6371000 * (81 / 1000 * Real.pi / 180) / (2 * 1000) := by
    nlinarith
  have hfl : ⌊6371000 * (81 / 1000 * Real.pi / 180) / (2 * 1000)⌋ = 4 := by
    rw [Int.floor_eq_iff]
    constructor <;> [nlinarith; nlinarith]
  rw [pytrunc, if_pos hq, hfl]
  rfl

/-- Projection of the real math bundle. -/
theorem realApi_pi : realApi.pi = Real.pi := rfl

/-- Projection of the real math bundle. -/
theorem realApi_sin : realApi.sin = Real.sin := rfl

/-- Projection of the real math bundle. -/
theorem realApi_cos : realApi.cos = Real.cos := rfl

/-- Projection of the real math bundle. -/
theorem realApi_asin : realApi.asin = Real.arcsin := rfl

/-- Projection of the real math bundle. -/
theorem realApi_atan2 : realApi.atan2 = ratan2 := rfl

/-- Projection of the real math bundle. -/
theorem realApi_sqrt : realApi.sqrt = Real.sqrt := rfl

/-- Interpolation of the test pair at one quarter. -/
theorem curved_interp0 :
    interpolate_coordinates (⟨0, 1799999 / 10000⟩ : Coord ℝ)
      ⟨81 / 1000, 1799999 / 10000⟩ (1 / 4) = .ok ⟨81 / 4000, 1799999 / 10000⟩ := by
  simp only [interpolate_coordinates]
  rw [show (0 : ℝ) + (81 / 1000 - 0) * (1 / 4) = 81 / 4000 by norm_num,
    show (1799999 / 10000 : ℝ) +
      (1799999 / 10000 - 1799999 / 10000) * (1 / 4) = 1799999 / 10000 by norm_num]
  exact mkCoord_ok (by norm_num) (by norm_num) (by norm_num) (by norm_num)

/-- Interpolation of the test pair at one half. -/
theorem curved_interp1 :
    interpolate_coordinates (⟨0, 1799999 / 10000⟩ : Coord ℝ)
      ⟨81 / 1000, 1799999 / 10000⟩ (1 / 2) = .ok ⟨81 / 2000, 1799999 / 10000⟩ := by
  simp only [interpolate_coordinates]
  rw [show (0 : ℝ) + (81 / 1000 - 0) * (1 / 2) = 81 / 2000 by norm_num,
    show (1799999 / 10000 : ℝ) +
      (1799999 / 10000 - 1799999 / 10000) * (1 / 2) = 1799999 / 10000 by norm_num]
  exact mkCoord_ok (by norm_num) (by norm_num) (by norm_num) (by norm_num)

/-- A zero-distance projection returns its input coordinate. -/
theorem curved_dest0 :
    destination_point realApi ⟨81 / 4000, 1799999 / 10000⟩ 0 90
      = .ok ⟨81 / 4000, 1799999 / 10000⟩ := by
  have hpi := Real.pi_pos
  simp only [destination_point, rawDestination, radiansA, degreesA,
    EARTH_RADIUS_M, realApi_pi, realApi_sin, realApi_cos, realApi_asin,
    realApi_atan2, realApi_sqrt]
  have h90 : (90 : ℝ) * Real.pi / 180 = Real.pi / 2 := by ring
  have hz : (0 : ℝ) / 6371000 = 0 := by norm_num
  rw [h90, hz, Real.sin_zero, Real.cos_zero, Real.cos_pi_div_two,
    Real.sin_pi_div_two]
  have harg : Real.sin (81 / 4000 * Real.pi / 180) * 1 +
      Real.cos (81 / 4000 * Real.pi / 180) * 0 * 0
      = Real.sin (81 / 4000 * Real.pi / 180) := by ring
  rw [harg, Real.arcsin_sin (by nlinarith) (by nlinarith)]
  have hy : (1 : ℝ) * 0 * Real.cos (81 / 4000 * Real.pi / 180) = 0 := by ring
  have hx : (1 : ℝ) - Real.sin (81 / 4000 * Real.pi / 180) *
      Real.sin (81 / 4000 * Real.pi / 180)
      = Real.cos (81 / 4000 * Real.pi / 180) ^ 2 := by
    nlinarith [Real.sin_sq_add_cos_sq (81 / 4000 * Real.pi / 180)]
  rw [hy, hx]
  have hxpos : 0 < Real.cos (81 / 4000 * Real.pi / 180) ^ 2 := by
    have hc : 0 < Real.cos (81 / 4000 * Real.pi / 180) :=
      Real.cos_pos_of_mem_Ioo ⟨by nlinarith, by nlinarith⟩
    positivity
  have hr : ratan2 0 (Real.cos (81 / 4000 * Real.pi / 180) ^ 2) = 0 := by
    rw [ratan2, if_pos hxpos, zero_div, Real.arctan_zero]
  rw [hr]
  have hA : 81 / 4000 * Real.pi / 180 * 180 / Real.pi = 81 / 4000 := by
    field_simp
    ring
  have hB : (1799999 / 10000 * Real.pi / 180 + 0) * 180 / Real.pi
      = 1799999 / 10000 := by
    field_simp
    ring
  rw [hA, hB]
  exact mkCoord_ok (by norm_num) (by norm_num) (by norm_num) (by norm_num)

set_option maxHeartbeats 1000000 in
/-- The perpendicular offset of roughly 450 meters taken due east from
latitude 0.0405 at longitude 179.9999 pushes the raw longitude past 180,
so the constructed Coordinate raises the longitude ValueError. -/
theorem curved_dest1 :
    destination_point realApi ⟨81 / 2000, 1799999 / 10000⟩
      (6371000 * (81 / 1000 * Real.pi / 180) * (1 / 2) * (1 / 10)) 90
      = .error (.valueError "Invalid longitude") := by
  have hpi := Real.pi_pos
  simp only [destination_point, rawDestination, radiansA, degreesA,
    EARTH_RADIUS_M, realApi_pi, realApi_sin, realApi_cos, realApi_asin,
    realApi_atan2, realApi_sqrt]
  have h90 : (90 : ℝ) * Real.pi / 180 = Real.pi / 2 := by ring
  have hmu : (81 : ℝ) / 2000 * Real.pi / 180 = 9 * Real.pi / 40000 := by ring
  have hdel : 6371000 * (81 / 1000 * Real.pi / 180) * (1 / 2) * (1 / 10) /
      6371000 = 9 * Real.pi / 400000 := by ring
  rw [h90, hmu, hdel, Real.cos_pi_div_two, Real.sin_pi_div_two]
  have harg : Real.sin (9 * Real.pi / 40000) * Real.cos (9 * Real.pi / 400000) +
      Real.cos (9 * Real.pi / 40000) * Real.sin (9 * Real.pi / 400000) * 0
      = Real.sin (9 * Real.pi / 40000) * Real.cos (9 * Real.pi / 400000) := by
    ring
  rw [harg]
  have hbound : -1 ≤ Real.sin (9 * Real.pi / 40000) *
      Real.cos (9 * Real.pi / 400000) ∧
      Real.sin (9 * Real.pi / 40000) * Real.cos (9 * Real.pi / 400000) ≤ 1 := by
    constructor <;>
      nlinarith [Real.neg_one_le_sin (9 * Real.pi / 40000),
        Real.sin_le_one (9 * Real.pi / 40000),
        Real.neg_one_le_cos (9 * Real.pi / 400000),
        Real.cos_le_one (9 * Real.pi / 400000)]
  rw [Real.sin_arcsin hbound.1 hbound.2]
  have hcosmu : 0 < Real.cos (9 * Real.pi / 40000) :=
    Real.cos_pos_of_mem_Ioo ⟨by nlinarith, by nlinarith⟩
  have hcosdel : 0 < Real.cos (9 * Real.pi / 400000) :=
    Real.cos_pos_of_mem_Ioo ⟨by nlinarith, by nlinarith⟩
  have hsindel : 0 < Real.sin (9 * Real.pi / 400000) :=
    Real.sin_pos_of_pos_of_lt_pi (by positivity) (by nlinarith)
  have hy : (1 : ℝ) * Real.sin (9 * Real.pi / 400000) *
      Real.cos (9 * Real.pi / 40000)
      = Real.sin (9 * Real.pi / 400000) * Real.cos (9 * Real.pi / 40000) := by
    ring
  have hx : Real.cos (9 * Real.pi / 400000) - Real.sin (9 * Real.pi / 40000) *
      (Real.sin (9 * Real.pi / 40000) * Real.cos (9 * Real.pi / 400000))
      = Real.cos (9 * Real.pi / 400000) * Real.cos (9 * Real.pi / 40000) ^ 2 := by
    nlinarith [Real.sin_sq_add_cos_sq (9 * Real.pi / 40000)]
  rw [hy, hx]
  have hxpos : 0 < Real.cos (9 * Real.pi / 400000) *
      Real.cos (9 * Real.pi / 40000) ^ 2 := by positivity
  have hrt : ratan2 (Real.sin (9 * Real.pi / 400000) *
      Real.cos (9 * Real.pi / 40000))
      (Real.cos (9 * Real.pi / 400000) * Real.cos (9 * Real.pi / 40000) ^ 2)
      = Real.arctan ((Real.sin (9 * Real.pi / 400000) *
        Real.cos (9 * Real.pi / 40000)) /
        (Real.cos (9 * Real.pi / 400000) * Real.cos (9 * Real.pi / 40000) ^ 2)) := by
    rw [ratan2, if_pos hxpos]
  have hyx : (Real.sin (9 * Real.pi / 400000) * Real.cos (9 * Real.pi / 40000)) /
      (Real.cos (9 * Real.pi / 400000) * Real.cos (9 * Real.pi / 40000) ^ 2)
      = Real.tan (9 * Real.pi / 400000) / Real.cos (9 * Real.pi / 40000) := by
    rw [Real.tan_eq_sin_div_cos]
    field_simp
    ring
  have htanpos : 0 < Real.tan (9 * Real.pi / 400000) := by
    rw [Real.tan_eq_sin_div_cos]
    positivity
  have hmono : Real.tan (9 * Real.pi / 400000) ≤
      Real.tan (9 * Real.pi / 400000) / Real.cos (9 * Real.pi / 40000) := by
    rw [le_div_iff hcosmu]
    nlinarith [Real.cos_le_one (9 * Real.pi / 40000)]
  have harctan : 9 * Real.pi / 400000 ≤
      Real.arctan ((Real.sin (9 * Real.pi / 400000) *
        Real.cos (9 * Real.pi / 40000)) /
        (Real.cos (9 * Real.pi / 400000) * Real.cos (9 * Real.pi / 40000) ^ 2)) := by
    rw [hyx]
    calc 9 * Real.pi / 400000
        = Real.arctan (Real.tan (9 * Real.pi / 400000)) :=
          (Real.arctan_tan (by nlinarith) (by nlinarith)).symm
      _ ≤ Real.arctan (Real.tan (9 * Real.pi / 400000) /
          Real.cos (9 * Real.pi / 40000)) :=
          Real.arctan_strictMono.monotone hmono
  rw [hrt]
  refine mkCoord_lon_too_big ?_ ?_ ?_
  · have h1 := Real.neg_pi_div_two_le_arcsin
      (Real.sin (9 * Real.pi / 40000) * Real.cos (9 * Real.pi / 400000))
    have h3 : -(Real.pi / 2) * 180 / Real.pi = -90 := by
      field_simp
      ring
    rw [← h3]
    gcongr
  · have h1 := Real.arcsin_le_pi_div_two
      (Real.sin (9 * Real.pi / 40000) * Real.cos (9 * Real.pi / 400000))
    have h3 : Real.pi / 2 * 180 / Real.pi = 90 := by
      field_simp
      ring
    rw [← h3]
    gcongr
  · have hval : (1799999 / 10000 * Real.pi / 180 + 9 * Real.pi / 400000) *
        180 / Real.pi = 3600079 / 20000 := by
      field_simp
      ring
    have hstep : (1799999 / 10000 * Real.pi / 180 + 9 * Real.pi / 400000) *
        180 / Real.pi ≤ (1799999 / 10000 * Real.pi / 180 +
          Real.arctan ((Real.sin (9 * Real.pi / 400000) *
            Real.cos (9 * Real.pi / 40000)) /
            (Real.cos (9 * Real.pi / 400000) *
              Real.cos (9 * Real.pi / 40000) ^ 2))) * 180 / Real.pi := by
      gcongr
    rw [hval] at hstep
    have h180 : (180 : ℝ) < 3600079 / 20000 := by norm_num
    linarith

set_option maxHeartbeats 1000000 in
/-- The Curved generator, run with an all-zero random stream on a valid
due-north pair hugging the antimeridian, calls the destination primitive
with an eastward perpendicular offset whose raw longitude exceeds 180,
so route generation raises instead of returning a route. -/
theorem curved_route_fails :
    curvedRoute realApi (fun _ => 0) ⟨0, 1799999 / 10000⟩
      ⟨81 / 1000, 1799999 / 10000⟩ = .error (.valueError "Invalid longitude") := by
  have hπ := Real.pi_pos
  have h3 := Real.pi_gt_three
  have h315 := Real.pi_lt_d2
  simp only [curvedRoute, curved_pair_haversine, curved_pair_bearing]
  rw [if_neg (by nlinarith : ¬ (6371000 * (81 / 1000 * Real.pi / 180) < 2 * 1000))]
  rw [curved_pair_segments]
  rw [if_neg (by norm_num : ¬ ((4:ℕ) ≤ 1))]
  rw [show List.range (4 - 1) = [0, 1, 2] from rfl]
  simp only [realApi_pi, realApi_sin, realApi_cos, realApi_asin,
    realApi_atan2, realApi_sqrt, List.mapM_cons, List.mapM_nil]
  norm_num
  rw [curved_interp0]
  simp only [Bind.bind, Except.bind]
  rw [show |Real.cos (1 / 2 * Real.pi) * (6371000 * (81 / 1000 * Real.pi / 180)) *
      (1 / 2) * (1 / 10)| = (0 : ℝ) by
    rw [show (1 / 2 * Real.pi : ℝ) = Real.pi / 2 by ring, Real.cos_pi_div_two]
    norm_num]
  rw [curved_dest0]
  simp only [Bind.bind, Except.bind]
  rw [curved_interp1]
  simp only [Bind.bind, Except.bind]
  rw [show |6371000 * (81 / 1000 * Real.pi / 180) * (1 / 2) * (1 / 10)|
      = 6371000 * (81 / 1000 * Real.pi / 180) * (1 / 2) * (1 / 10) from
    abs_of_pos (by positivity)]
  rw [curved_dest1]

/-- C10: the destination-point primitive does not normalise longitude:
one degree of eastward arc from latitude 0, longitude 179.9 yields raw
longitude 180.9, outside the valid range, and Coordinate construction
raises the longitude ValueError; consequently a route generator that
calls it (here Curved, on the valid near-antimeridian pair 0 N 179.9999 E
to 0.081 N 179.9999 E with an all-zero random stream) fails with that
ValueError instead of returning a route. -/
theorem C10_antimeridian_failure :
    180 < (rawDestination realApi ⟨0, 1799 / 10⟩
      (6371000 * (Real.pi / 180)) 90).2 ∧
    destination_point realApi ⟨0, 1799 / 10⟩ (6371000 * (Real.pi / 180)) 90
      = .error (.valueError "Invalid longitude") ∧
    validCoord (⟨0, 1799999 / 10000⟩ : Coord ℝ) ∧
    validCoord (⟨81 / 1000, 1799999 / 10000⟩ : Coord ℝ) ∧
    curvedRoute realApi (fun _ => 0) ⟨0, 1799999 / 10000⟩
      ⟨81 / 1000, 1799999 / 10000⟩ = .error (.valueError "Invalid longitude") :=
  ⟨destination_point_overflow.1, destination_point_overflow.2,
   ⟨by norm_num, by norm_num, by norm_num, by norm_num⟩,
   ⟨by norm_num, by norm_num, by norm_num, by norm_num⟩,
   curved_route_fails⟩

end Radar
